import Mathlib

/-!
Verification development for the CollisionStage of the traffic-manager
pipeline (src/TrafficManager/source/pipeline/CollisionStage.cpp).

Numeric values that the C++ source stores in `float` are modelled as exact
rationals (`ℚ`); the velocity-dependent boundary-extension formula, which
involves a square root, is additionally modelled over `ℝ` for the numerical
claims.  External geometry primitives (boost::geometry intersection, area and
distance, CARLA vector normalisation and `std::sqrt` as used inside the
executable pipeline) are collected in a `Geo` parameter structure: the
theorems below hold for every interpretation of those primitives unless a
stated hypothesis names the library property they rely on.

Fallible C++ operations are made explicit: `std::vector::at` /
`std::deque::at` out of range throws (modelled as a recoverable error where
the source catches it), `std::deque::front` on an empty deque and
dereferencing a null actor handle are undefined behaviour (modelled as
distinguished error outcomes that no handler catches).
-/

namespace CollisionStage

/-- Actor identity (`carla::ActorId`). -/
abbrev ActorId := Nat

/-- Ground/world vector with exact rational coordinates; models both
`carla::geom::Location` and `carla::geom::Vector3D`. -/
structure Vec3 where
  x : ℚ
  y : ℚ
  z : ℚ
deriving DecidableEq

instance : Inhabited Vec3 := ⟨⟨0, 0, 0⟩⟩

instance : Add Vec3 := ⟨fun a b => ⟨a.x + b.x, a.y + b.y, a.z + b.z⟩⟩

instance : Sub Vec3 := ⟨fun a b => ⟨a.x - b.x, a.y - b.y, a.z - b.z⟩⟩

/-- Scalar multiple of a vector (`operator*` on `cg::Vector3D`). -/
def Vec3.scale (q : ℚ) (v : Vec3) : Vec3 := ⟨q * v.x, q * v.y, q * v.z⟩

/-- Squared Euclidean length of a vector. -/
def Vec3.sqLen (v : Vec3) : ℚ := v.x ^ 2 + v.y ^ 2 + v.z ^ 2

/-- `cg::Math::DistanceSquared` between two locations (full 3D). -/
def distanceSquared (a b : Vec3) : ℚ :=
  (a.x - b.x) ^ 2 + (a.y - b.y) ^ 2 + (a.z - b.z) ^ 2

/-- Squared distance restricted to the ground plane (x, y only). -/
def planarDistanceSquared (a b : Vec3) : ℚ :=
  (a.x - b.x) ^ 2 + (a.y - b.y) ^ 2

/-- One waypoint of a vehicle path buffer (`SimpleWaypoint`): its location
and unit forward heading. -/
structure SimpleWaypoint where
  location : Vec3
  forwardVector : Vec3
deriving DecidableEq

/-- State an actor handle exposes to the collision stage: identity,
location, transform forward vector, velocity and bounding-box extent
(half sizes). -/
structure ActorState where
  id : ActorId
  location : Vec3
  forwardVector : Vec3
  velocity : Vec3
  extent : Vec3
deriving DecidableEq

/-- One record of the localization frame (`LocalizationToCollisionData`):
the actor and its waypoint buffer. -/
structure LocalizationToCollisionData where
  actor : ActorState
  buffer : List SimpleWaypoint
deriving DecidableEq

/-- The input frame delivered by the localization stage. -/
abbrev Frame := List LocalizationToCollisionData

/-- The `id_to_index` member: `std::unordered_map<ActorId, uint>` modelled
as an association list in insertion order. -/
abbrev IdIndexMap := List (ActorId × Nat)

/-- `unordered_map::find` semantics: the value bound to the key, if any. -/
def mapFind (m : IdIndexMap) (k : ActorId) : Option Nat :=
  (m.find? fun p => p.1 == k).map Prod.snd

/-- `unordered_map::insert` semantics: a no-op when the key is already
present, otherwise the binding is added. -/
def mapInsert (m : IdIndexMap) (k : ActorId) (v : Nat) : IdIndexMap :=
  match mapFind m k with
  | some _ => m
  | none => m ++ [(k, v)]

/-- The map update performed by `CollisionStage::DataReceiver`
(CollisionStage.cpp lines 138-141): starting from the map left over from
the previous tick, insert `(actor id, index)` for each frame entry with a
post-incremented running index.  The source never clears `id_to_index`
before this loop. -/
def dataReceiverMap (old : IdIndexMap) (frame : Frame) : IdIndexMap :=
  (frame.foldl (fun acc d => (mapInsert acc.1 d.actor.id acc.2, acc.2 + 1)) (old, 0)).1

/-- The list of actor identities of a frame, in frame order. -/
def frameIds (frame : Frame) : List ActorId :=
  frame.map fun d => d.actor.id

/-! ### Constants (namespace CollisionStageConstants, lines 5-14) -/

def SEARCH_RADIUS : ℚ := 20

def VERTICAL_OVERLAP_THRESHOLD : ℚ := 2

def ZERO_AREA : ℚ := 1 / 10000

def BOUNDARY_EXTENSION_MINIMUM : ℚ := 3 / 2

def EXTENSION_SQUARE_POINT : ℚ := 7

def TIME_HORIZON : ℚ := 1 / 2

/-- `HIGHWAY_SPEED = 50 / 3.6f`, i.e. 50 km/h in m/s. -/
def HIGHWAY_SPEED : ℚ := 125 / 9

def HIGHWAY_TIME_HORIZON : ℚ := 5

/-! ### External geometry primitives -/

/-- A polygon handed to boost::geometry, as the ring of its ground-plane
vertices (the source serialises x and y of each boundary point to WKT and
parses it back, `GetPolygon`, lines 208-220). -/
abbrev Polygon := List (ℚ × ℚ)

/-- Interpretation of the external numeric and geometric primitives the
stage calls: `sqrtQ` models `std::sqrt` as used on `float` inside the
pipeline, `normalize` models `cg::Vector3D::MakeUnitVector`, `interPieces`
models `boost::geometry::intersection` (the deque of intersection pieces),
`area` models `boost::geometry::area` and `dist` models
`boost::geometry::distance`.  Theorems are stated for every interpretation;
where a theorem needs a semantic fact about one primitive it carries that
fact as an explicit hypothesis. -/
structure Geo where
  sqrtQ : ℚ → ℚ
  normalize : Vec3 → Vec3
  interPieces : Polygon → Polygon → List Polygon
  area : Polygon → ℚ
  dist : Polygon → Polygon → ℚ

/-- A degenerate interpretation of the external primitives, used to
evaluate the theorems on concrete inputs. -/
def trivialGeo : Geo where
  sqrtQ := fun _ => 0
  normalize := fun v => v
  interPieces := fun _ _ => []
  area := fun _ => 0
  dist := fun _ _ => 0

/-! ### Boundary construction -/

/-- `CollisionStage::GetBoundary` (lines 281-301): the four corners of the
vehicle's oriented bounding rectangle, in top-view clockwise order for the
left-handed system. -/
def GetBoundary (a : ActorState) : List Vec3 :=
  let headingVector : Vec3 := ⟨a.forwardVector.x, a.forwardVector.y, 0⟩
  let perpendicularVector : Vec3 := ⟨-headingVector.y, headingVector.x, 0⟩
  let xBoundaryVector := Vec3.scale a.extent.x headingVector
  let yBoundaryVector := Vec3.scale a.extent.y perpendicularVector
  [a.location + (xBoundaryVector - yBoundaryVector),
   a.location + (Vec3.scale (-1) xBoundaryVector - yBoundaryVector),
   a.location + (Vec3.scale (-1) xBoundaryVector + yBoundaryVector),
   a.location + (xBoundaryVector + yBoundaryVector)]

/-- `CollisionStage::GetPolygon` (lines 208-220): the boundary's planar
points followed by a repetition of the first point, closing the WKT ring.
The source reads `boundary[0]`; every call site passes a non-empty
boundary, so the `headI` default of the empty case is dead code. -/
def GetPolygon (boundary : List Vec3) : Polygon :=
  boundary.map (fun l => (l.x, l.y)) ++ [(boundary.headI.x, boundary.headI.y)]

/-- Failure modes of `GetGeodesicBoundary`: `exn` is a thrown
`std::out_of_range` from `localization_frame->at` (catchable), `frontUB`
is `std::deque::front()` on an empty waypoint buffer (undefined
behaviour). -/
inductive GeoFail
  | exn
  | frontUB
deriving DecidableEq

/-- The waypoint walk of `GetGeodesicBoundary` (lines 247-261): starting
from the buffer front, while the squared distance from the start to the
current end waypoint is below the squared extension and waypoints remain,
push the left/right offsets of the current end and advance the end to the
next indexed waypoint.  The remaining list stands for the indices `i`
still below `waypoint_buffer->size()`. -/
def boundaryWalk (geo : Geo) (width : ℚ) (startWp : SimpleWaypoint) (extSq : ℚ) :
    List SimpleWaypoint → SimpleWaypoint → List Vec3 → List Vec3 →
    List Vec3 × List Vec3
  | [], _, leftB, rightB => (leftB, rightB)
  | w :: rest, bend, leftB, rightB =>
    if distanceSquared startWp.location bend.location < extSq then
      let headingVector := bend.forwardVector
      let perpendicularVector := geo.normalize ⟨-headingVector.y, headingVector.x, 0⟩
      let scaledPerpendicular := Vec3.scale width perpendicularVector
      boundaryWalk geo width startWp extSq rest w
        (leftB ++ [bend.location + scaledPerpendicular])
        (rightB ++ [bend.location + Vec3.scale (-1) scaledPerpendicular])
    else (leftB, rightB)

/-- `CollisionStage::GetGeodesicBoundary` (lines 222-279).  An actor absent
from `id_to_index` gets its static boundary.  A registered actor gets the
path-extended polygon: reversed right offsets, the four static corners,
then the left offsets.  `localization_frame->at` with an out-of-range
stale index throws (`.error .exn`); `waypoint_buffer->front()` on an empty
buffer is undefined behaviour (`.error .frontUB`). -/
def GetGeodesicBoundary (geo : Geo) (frame : Frame) (m : IdIndexMap) (a : ActorState) :
    Except GeoFail (List Vec3) :=
  let bbox := GetBoundary a
  match mapFind m a.id with
  | some idx =>
    match frame[idx]? with
    | none => .error .exn
    | some d =>
      let velocity := geo.sqrtQ a.velocity.sqLen
      let base := max (geo.sqrtQ (EXTENSION_SQUARE_POINT * velocity)) BOUNDARY_EXTENSION_MINIMUM +
        max (velocity * TIME_HORIZON) BOUNDARY_EXTENSION_MINIMUM +
        BOUNDARY_EXTENSION_MINIMUM
      let bboxExtension := if HIGHWAY_SPEED < velocity then HIGHWAY_TIME_HORIZON * velocity else base
      match d.buffer with
      | [] => .error .frontUB
      | w0 :: _ =>
        let walked := boundaryWalk geo a.extent.y w0 (bboxExtension ^ 2) d.buffer w0 [] []
        .ok (walked.2.reverse ++ bbox ++ walked.1)
  | none => .ok bbox

/-! ### Overlap test and negotiation -/

/-- `CollisionStage::CheckOverlap` (lines 185-206): both boundaries must be
non-empty and some piece of the boost intersection must have area above
`ZERO_AREA`. -/
def CheckOverlap (geo : Geo) (boundary_a boundary_b : List Vec3) : Bool :=
  if boundary_a.length > 0 && boundary_b.length > 0 then
    (geo.interPieces (GetPolygon boundary_a) (GetPolygon boundary_b)).any
      fun p => decide (ZERO_AREA < geo.area p)
  else false

/-- `CollisionStage::NegotiateCollision` (lines 153-183): no hazard when
the vertical separation reaches the threshold; otherwise hazard iff the
geodesic boundaries overlap and the reference's static boundary is
strictly farther from the other's geodesic polygon than conversely.
Failures of the geodesic construction propagate. -/
def NegotiateCollision (geo : Geo) (frame : Frame) (m : IdIndexMap)
    (reference_vehicle other_vehicle : ActorState) : Except GeoFail Bool :=
  if |reference_vehicle.location.z - other_vehicle.location.z| < VERTICAL_OVERLAP_THRESHOLD then
    match GetGeodesicBoundary geo frame m reference_vehicle,
          GetGeodesicBoundary geo frame m other_vehicle with
    | .ok referenceGeodesic, .ok otherGeodesic =>
      .ok (CheckOverlap geo referenceGeodesic otherGeodesic &&
        decide (geo.dist (GetPolygon (GetBoundary other_vehicle)) (GetPolygon referenceGeodesic) <
          geo.dist (GetPolygon (GetBoundary reference_vehicle)) (GetPolygon otherGeodesic)))
    | .error e, _ => .error e
    | .ok _, .error e => .error e
  else .ok false

/-! ### The per-candidate loop of `CollisionStage::Action` -/

/-- The side table of actors not spawned by the traffic manager
(`unregistered_actors`). -/
abbrev UnregTable := List (ActorId × ActorState)

/-- `unordered_map::find` on the unregistered-actor table. -/
def unregFind (t : UnregTable) (c : ActorId) : Option ActorState :=
  (t.find? fun p => p.1 == c).map Prod.snd

/-- Outcome of resolving a candidate id (lines 103-108): a handle from the
localization frame or the unregistered table; `atThrow` when the mapped
index is out of the frame's range (`at` throws `std::out_of_range`);
`nullHandle` when the id is in neither table, so the handle initialised to
`nullptr` is never assigned. -/
inductive Resolution
  | found (a : ActorState)
  | atThrow
  | nullHandle
deriving DecidableEq

/-- Candidate resolution as performed at lines 103-108. -/
def resolveActor (frame : Frame) (m : IdIndexMap) (unreg : UnregTable)
    (c : ActorId) : Resolution :=
  match mapFind m c with
  | some idx =>
    match frame[idx]? with
    | some d => .found d.actor
    | none => .atThrow
  | none =>
    match unregFind unreg c with
    | some a => .found a
    | none => .nullHandle

/-- Outcome of the body of the per-candidate loop (lines 99-120):
a computed hazard bit, an exception caught by the handler at line 117,
a null-handle dereference at line 110 (undefined behaviour), or the
undefined behaviour of `front()` on an empty buffer inside
`GetGeodesicBoundary`. -/
inductive CandidateOutcome
  | ok (hazard : Bool)
  | caughtExn
  | nullDeref
  | frontUB
deriving DecidableEq

/-- The body of the per-candidate loop (lines 101-116): skip self, resolve
the candidate, read both locations, and call `NegotiateCollision` only when
the squared 3D distance is within `SEARCH_RADIUS` squared. -/
def candidateBody (geo : Geo) (frame : Frame) (m : IdIndexMap) (unreg : UnregTable)
    (ego : ActorState) (c : ActorId) : CandidateOutcome :=
  if c = ego.id then .ok false
  else
    match resolveActor frame m unreg c with
    | .found other =>
      if distanceSquared ego.location other.location ≤ SEARCH_RADIUS * SEARCH_RADIUS then
        match NegotiateCollision geo frame m ego other with
        | .ok h => .ok h
        | .error .exn => .caughtExn
        | .error .frontUB => .frontUB
      else .ok false
    | .atThrow => .caughtExn
    | .nullHandle => .nullDeref

/-- Undefined behaviour that escapes the loop (nothing catches it). -/
inductive UBKind
  | nullDeref
  | frontUB
deriving DecidableEq

/-- The candidate loop for one vehicle (lines 97-122): first hazard stops
the scan; a caught exception is logged and the scan continues; undefined
behaviour aborts. -/
def scanCandidates (geo : Geo) (frame : Frame) (m : IdIndexMap) (unreg : UnregTable)
    (ego : ActorState) : List ActorId → Except UBKind Bool
  | [] => .ok false
  | c :: rest =>
    match candidateBody geo frame m unreg ego c with
    | .ok true => .ok true
    | .ok false => scanCandidates geo frame m unreg ego rest
    | .caughtExn => scanCandidates geo frame m unreg ego rest
    | .nullDeref => .error .nullDeref
    | .frontUB => .error .frontUB

/-- A cause for the whole tick to abort: `frameAccess` is the uncaught
`std::out_of_range` of `localization_frame->at(i)` at line 88 (outside any
try block), the other two are undefined behaviour from the candidate
loop. -/
inductive TickAbort
  | frameAccess
  | nullDeref
  | frontUB
deriving DecidableEq

/-- Processing of one vehicle index inside `Action` (lines 86-126), with
the vicinity query supplied as the function `candsOf`. -/
def perVehicle (geo : Geo) (frame : Frame) (m : IdIndexMap) (unreg : UnregTable)
    (candsOf : ActorState → List ActorId) (i : Nat) : Except TickAbort Bool :=
  match frame[i]? with
  | none => .error .frameAccess
  | some d =>
    match scanCandidates geo frame m unreg d.actor (candsOf d.actor) with
    | .ok b => .ok b
    | .error .nullDeref => .error .nullDeref
    | .error .frontUB => .error .frontUB

/-- The vehicle loop of `Action` iterated by a countdown: from index
`start`, process `count` consecutive vehicles, collecting the
`(index, hazard)` writes into the output frame. -/
def actionLoop (geo : Geo) (frame : Frame) (m : IdIndexMap) (unreg : UnregTable)
    (candsOf : ActorState → List ActorId) : Nat → Nat → Except TickAbort (List (Nat × Bool))
  | _, 0 => .ok []
  | i, count + 1 =>
    match perVehicle geo frame m unreg candsOf i with
    | .error a => .error a
    | .ok b =>
      match actionLoop geo frame m unreg candsOf (i + 1) count with
      | .error a => .error a
      | .ok rest => .ok ((i, b) :: rest)

/-- The partition loop `for (uint i = start_index; i <= end_index; ++i)` of
`Action` (line 86): the hazard writes for indices `start_index` to
`end_index` inclusive. -/
def actionRange (geo : Geo) (frame : Frame) (m : IdIndexMap) (unreg : UnregTable)
    (candsOf : ActorState → List ActorId) (start_index end_index : Nat) :
    Except TickAbort (List (Nat × Bool)) :=
  actionLoop geo frame m unreg candsOf start_index (end_index + 1 - start_index)

/-! ### Double buffer and frame selector -/

/-- The two output buffer instances `planner_frame_a` / `planner_frame_b`. -/
inductive BufId
  | A
  | B
deriving DecidableEq

/-- The buffer selected by the `frame_selector` boolean (lines 49 and
147: `frame_selector ? planner_frame_a : planner_frame_b`). -/
def bufOf (sel : Bool) : BufId := if sel then .A else .B

/-- The value of `frame_selector` at the start of tick `k`: initialised to
`true` by the constructor (line 34) and negated once per tick by
`DataSender` (line 149). -/
def selAt : Nat → Bool
  | 0 => true
  | k + 1 => !selAt k

/-- The buffer instance `Action` writes during tick `k` (line 49). -/
def writtenBuf (k : Nat) : BufId := bufOf (selAt k)

/-- The buffer instance `DataSender` hands to the planner messenger at tick
`k`: the packet is built at lines 145-148 with the pre-flip selector. -/
def sentBuf (k : Nat) : BufId := bufOf (selAt k)

/-- Observable events of one tick, in program order. -/
inductive TickEvent
  | write (buf : BufId) (slot : Nat)
  | flipSelector
  | send (buf : BufId)
deriving DecidableEq

/-- The write events of `Action` during tick `k` over an `n`-vehicle
frame: one hazard write per slot, all into the selector's buffer. -/
def actionEvents (k n : Nat) : List TickEvent :=
  (List.range n).map fun slot => .write (writtenBuf k) slot

/-- The events of `DataSender` at tick `k`, in program order (lines
144-151): the selector flip at line 149 happens after the packet captured
the buffer but before the `SendData` call at line 150. -/
def dataSenderEvents (k : Nat) : List TickEvent :=
  [.flipSelector, .send (sentBuf k)]

/-- All events of tick `k` in program order: `Action` completes its writes
before `DataSender` runs. -/
def tickEvents (k n : Nat) : List TickEvent :=
  actionEvents k n ++ dataSenderEvents k

/-! ### The boundary-extension length over the reals -/

/-- The base (sub-highway) boundary-extension length of
`GetGeodesicBoundary` (lines 229-231), read over the real numbers:
`max(sqrt(7*speed), 1.5) + max(speed*0.5, 1.5) + 1.5`. -/
noncomputable def bboxExtensionBase (speed : ℝ) : ℝ :=
  max (Real.sqrt (7 * speed)) (3 / 2) + max (speed * (1 / 2)) (3 / 2) + 3 / 2

/-- The boundary-extension length actually used (line 233): the highway
formula `5 * speed` when the speed strictly exceeds `HIGHWAY_SPEED =
50/3.6 = 125/9`, the base formula otherwise. -/
noncomputable def bboxExtensionLength (speed : ℝ) : ℝ :=
  if (125 / 9 : ℝ) < speed then 5 * speed else bboxExtensionBase speed

/-! ### Concrete instances used to evaluate the theorems -/

/-- A concrete actor with the given identity, at the origin, heading +x,
at rest, with unit half-extents. -/
def mkActor (i : ActorId) : ActorState :=
  ⟨i, ⟨0, 0, 0⟩, ⟨1, 0, 0⟩, ⟨0, 0, 0⟩, ⟨1, 1, 1⟩⟩

/-- A frame holding the single registered actor id 7 (tick 1 of the
stale-map scenario). -/
def frameT1 : Frame := [⟨mkActor 7, []⟩]

/-- A frame holding the single registered actor id 9 (tick 2 of the
stale-map scenario). -/
def frameT2 : Frame := [⟨mkActor 9, []⟩]

/-- A registered actor whose localization record carries an empty waypoint
buffer. -/
def emptyBufFrame : Frame := [⟨mkActor 1, []⟩]

/-- The identity-to-index map registering actor id 1 at index 0. -/
def emptyBufMap : IdIndexMap := [(1, 0)]

/-! ### Helper lemmas -/

/-- Permuted lists agree on `List.any`. -/
theorem perm_any_eq {α : Type} {l1 l2 : List α} (h : l1.Perm l2) (f : α → Bool) :
    l1.any f = l2.any f := by
  rw [Bool.eq_iff_iff]
  simp only [List.any_eq_true]
  exact ⟨fun ⟨x, hx, hfx⟩ => ⟨x, h.mem_iff.mp hx, hfx⟩,
    fun ⟨x, hx, hfx⟩ => ⟨x, h.mem_iff.mpr hx, hfx⟩⟩

/-- An `any` over an area predicate equals the `any` of the mapped areas. -/
theorem any_area_map (geo : Geo) (l : List Polygon) :
    (l.any fun p => decide (ZERO_AREA < geo.area p)) =
      ((l.map geo.area).any fun q => decide (ZERO_AREA < q)) := by
  induction l with
  | nil => rfl
  | cons a t ih => simp [List.any_cons, ih]

/-- Candidate resolution leaves the handle null exactly when the id is in
neither table. -/
theorem resolveActor_eq_nullHandle (frame : Frame) (m : IdIndexMap) (unreg : UnregTable)
    (c : ActorId) :
    resolveActor frame m unreg c = .nullHandle ↔
      mapFind m c = none ∧ unregFind unreg c = none := by
  unfold resolveActor
  cases hm : mapFind m c with
  | some idx => cases hf : frame[idx]? <;> simp [hf]
  | none => cases hu : unregFind unreg c <;> simp [hu]

/-- When every index in the window resolves to a completed scan, the
vehicle loop completes and writes one flag per index, in order. -/
theorem actionLoop_ok (geo : Geo) (frame : Frame) (m : IdIndexMap) (unreg : UnregTable)
    (candsOf : ActorState → List ActorId) :
    ∀ count start_index,
      (∀ i, start_index ≤ i → i < start_index + count →
        ∃ b, perVehicle geo frame m unreg candsOf i = .ok b) →
      ∃ out, actionLoop geo frame m unreg candsOf start_index count = .ok out ∧
        out.map Prod.fst = List.range' start_index count := by
  intro count
  induction count with
  | zero => exact fun s _ => ⟨[], rfl, rfl⟩
  | succ n ih =>
    intro s h
    obtain ⟨b, hb⟩ := h s le_rfl (by omega)
    obtain ⟨out, hout, hmap⟩ := ih (s + 1) (fun i h1 h2 => h i (by omega) (by omega))
    refine ⟨(s, b) :: out, ?_, ?_⟩
    · simp only [actionLoop, hb, hout]
    · simp [hmap, List.range'_succ]

/-- The square root term of the extension formula is at most 10 whenever
the speed is at most the highway threshold. -/
theorem sqrt_term_le (v : ℝ) (h : v ≤ 125 / 9) : Real.sqrt (7 * v) ≤ 10 := by
  have h1 : Real.sqrt (7 * v) ≤ Real.sqrt 100 := Real.sqrt_le_sqrt (by linarith)
  have h2 : Real.sqrt 100 = 10 := by
    rw [show (100 : ℝ) = 10 ^ 2 by norm_num, Real.sqrt_sq (by norm_num : (0 : ℝ) ≤ 10)]
  linarith

/-- At sub-highway speeds the base extension length is at most 166/9. -/
theorem bboxExtensionBase_le (v : ℝ) (h : v ≤ 125 / 9) : bboxExtensionBase v ≤ 166 / 9 := by
  unfold bboxExtensionBase
  have h1 : max (Real.sqrt (7 * v)) (3 / 2) ≤ 10 := max_le (sqrt_term_le v h) (by norm_num)
  have h2 : max (v * (1 / 2)) (3 / 2) ≤ 125 / 18 := max_le (by linarith) (by norm_num)
  linarith

/-- The base extension length is monotone in speed. -/
theorem bboxExtensionBase_mono {v1 v2 : ℝ} (h : v1 ≤ v2) :
    bboxExtensionBase v1 ≤ bboxExtensionBase v2 := by
  unfold bboxExtensionBase
  have hs : Real.sqrt (7 * v1) ≤ Real.sqrt (7 * v2) := Real.sqrt_le_sqrt (by linarith)
  have hm1 : max (Real.sqrt (7 * v1)) (3 / 2) ≤ max (Real.sqrt (7 * v2)) (3 / 2) :=
    max_le_max hs le_rfl
  have hm2 : max (v1 * (1 / 2)) (3 / 2) ≤ max (v2 * (1 / 2)) (3 / 2) :=
    max_le_max (by linarith) le_rfl
  linarith

/-! ### Claim C1 -/

/-- C1: the claim states that `DataReceiver` rebuilds the identity-to-index
map from scratch each tick, leaving a bijection onto `[0, N)` with no stale
entries.  The code (lines 138-141) never clears `id_to_index` and
`unordered_map::insert` keeps an existing binding, so after a tick-1 frame
containing only actor 7 and a tick-2 frame containing only actor 9 the map
still holds the stale binding of id 7, and two distinct ids are bound to
index 0. -/
theorem dataReceiver_keeps_stale_entries :
    dataReceiverMap (dataReceiverMap [] frameT1) frameT2 = [(7, 0), (9, 0)] ∧
    frameIds frameT2 = [9] := by
  exact ⟨rfl, rfl⟩

/-! ### Claim C3 -/

/-- C3 counterexample: the claim states the extension length equals
`5.0 * speed` at or above the highway threshold, but at exactly the
threshold speed the code (line 233, strict comparison) still uses the base
formula, whose value is at most 166/9 while `5 * (125/9) = 625/9`. -/
theorem bboxExtension_at_threshold_ne_highway :
    bboxExtensionLength (125 / 9) ≠ 5 * (125 / 9 : ℝ) := by
  have h1 : bboxExtensionLength (125 / 9) = bboxExtensionBase (125 / 9) := by
    unfold bboxExtensionLength
    rw [if_neg (lt_irrefl _)]
  have h2 := bboxExtensionBase_le (125 / 9) le_rfl
  rw [h1]
  intro h
  rw [h] at h2
  norm_num at h2

/-- C3 (amended): the extension length equals the base formula
`max(sqrt(7*speed), 1.5) + max(speed*0.5, 1.5) + 1.5` at speeds at or
below the highway threshold `125/9` and `5.0 * speed` strictly above it;
it is monotonically non-decreasing at or below the threshold, and no speed
strictly above the threshold yields a shorter extension than any speed at
or below it. -/
theorem bboxExtension_amended :
    (∀ v : ℝ, v ≤ 125 / 9 → bboxExtensionLength v = bboxExtensionBase v) ∧
    (∀ v : ℝ, 125 / 9 < v → bboxExtensionLength v = 5 * v) ∧
    (∀ v1 v2 : ℝ, v1 ≤ v2 → v2 ≤ 125 / 9 →
      bboxExtensionLength v1 ≤ bboxExtensionLength v2) ∧
    (∀ v1 v2 : ℝ, v1 ≤ 125 / 9 → 125 / 9 < v2 →
      bboxExtensionLength v1 ≤ bboxExtensionLength v2) := by
  have hbelow : ∀ v : ℝ, v ≤ 125 / 9 → bboxExtensionLength v = bboxExtensionBase v := by
    intro v hv
    unfold bboxExtensionLength
    rw [if_neg (not_lt.mpr hv)]
  refine ⟨hbelow, ?_, ?_, ?_⟩
  · intro v hv
    unfold bboxExtensionLength
    rw [if_pos hv]
  · intro v1 v2 h12 h2
    rw [hbelow v1 (le_trans h12 h2), hbelow v2 h2]
    exact bboxExtensionBase_mono h12
  · intro v1 v2 h1 h2
    rw [hbelow v1 h1]
    unfold bboxExtensionLength
    rw [if_pos h2]
    have := bboxExtensionBase_le v1 h1
    linarith

/-- C3 witness: the amended monotonicity applied at speeds 1 and 2. -/
theorem bboxExtension_amended_witness :
    bboxExtensionLength 1 ≤ bboxExtensionLength 2 :=
  bboxExtension_amended.2.2.1 1 2 (by norm_num) (by norm_num)

/-! ### Claim C5 -/

/-- C5: for every pair of vehicles whose vertical separation is at least
2.0 units, `NegotiateCollision` returns false (lines 157-159) regardless
of the geometry interpretation, the frame, the registry or the planar
data. -/
theorem negotiate_vertical_separation (geo : Geo) (frame : Frame) (m : IdIndexMap)
    (a b : ActorState) (h : (2 : ℚ) ≤ |a.location.z - b.location.z|) :
    NegotiateCollision geo frame m a b = .ok false := by
  unfold NegotiateCollision
  rw [if_neg]
  exact not_lt.mpr (by simpa [VERTICAL_OVERLAP_THRESHOLD] using h)

/-- C5 witness: two actors five units apart vertically are negotiated to
no hazard. -/
theorem negotiate_vertical_separation_witness :
    NegotiateCollision trivialGeo [] [] (mkActor 1)
      { mkActor 2 with location := ⟨0, 0, 5⟩ } = .ok false :=
  negotiate_vertical_separation trivialGeo [] [] (mkActor 1)
    { mkActor 2 with location := ⟨0, 0, 5⟩ } (by norm_num [mkActor])

/-! ### Claim C2 -/

/-- C2: for distinct vehicles `a` and `b` in one tick,
`NegotiateCollision geo frame m a b` and `NegotiateCollision geo frame m b a`
are never both hazardous, because the priority rule compares the same pair
of static-to-geodesic distances in opposite strict orders (lines 171-176);
and when those two distances are exactly equal, both directions return
false.  This holds for every interpretation of the external geometry. -/
theorem negotiate_mutually_exclusive (geo : Geo) (frame : Frame) (m : IdIndexMap)
    (a b : ActorState) (_hab : a ≠ b) :
    (¬(NegotiateCollision geo frame m a b = .ok true ∧
        NegotiateCollision geo frame m b a = .ok true)) ∧
    (∀ ga gb, GetGeodesicBoundary geo frame m a = .ok ga →
      GetGeodesicBoundary geo frame m b = .ok gb →
      geo.dist (GetPolygon (GetBoundary a)) (GetPolygon gb) =
        geo.dist (GetPolygon (GetBoundary b)) (GetPolygon ga) →
      NegotiateCollision geo frame m a b = .ok false ∧
      NegotiateCollision geo frame m b a = .ok false) := by
  constructor
  · rintro ⟨h1, h2⟩
    unfold NegotiateCollision at h1 h2
    by_cases hz : |a.location.z - b.location.z| < VERTICAL_OVERLAP_THRESHOLD
    · rw [if_pos hz] at h1
      rw [if_pos (by rw [abs_sub_comm]; exact hz)] at h2
      cases hga : GetGeodesicBoundary geo frame m a <;>
        cases hgb : GetGeodesicBoundary geo frame m b <;>
          rw [hga, hgb] at h1 h2 <;> simp at h1 h2
      exact absurd h2.2 (not_lt.mpr (le_of_lt h1.2))
    · rw [if_neg hz] at h1
      simp at h1
  · intro ga gb hga hgb hd
    unfold NegotiateCollision
    by_cases hz : |a.location.z - b.location.z| < VERTICAL_OVERLAP_THRESHOLD
    · constructor
      · rw [if_pos hz, hga, hgb]
        simp [hd]
      · rw [if_pos (by rw [abs_sub_comm]; exact hz), hga, hgb]
        simp [hd]
    · constructor
      · rw [if_neg hz]
      · rw [if_neg (by rw [abs_sub_comm]; exact hz)]

/-- C2 witness: two distinct resting unregistered actors; under the
degenerate geometry both static-to-geodesic distances are zero, hence
equal, and both negotiation directions yield no hazard. -/
theorem negotiate_mutually_exclusive_witness :
    NegotiateCollision trivialGeo [] [] (mkActor 1) (mkActor 2) = .ok false ∧
    NegotiateCollision trivialGeo [] [] (mkActor 2) (mkActor 1) = .ok false :=
  (negotiate_mutually_exclusive trivialGeo [] [] (mkActor 1) (mkActor 2)
    (by decide)).2 (GetBoundary (mkActor 1)) (GetBoundary (mkActor 2)) rfl rfl rfl

/-! ### Claim C4 -/

/-- C4 counterexample: the claim states that a registered vehicle with an
empty path buffer falls back to the static boundary; in the code the
buffer's front is read before the walk (lines 241-242), which on an empty
`std::deque` is undefined behaviour, not a fallback. -/
theorem geodesic_empty_buffer_no_fallback :
    ¬(GetGeodesicBoundary trivialGeo emptyBufFrame emptyBufMap (mkActor 1) =
      .ok (GetBoundary (mkActor 1))) := by
  have h : GetGeodesicBoundary trivialGeo emptyBufFrame emptyBufMap (mkActor 1) =
      .error .frontUB := rfl
  rw [h]
  simp

/-- C4 (amended): an actor absent from the identity-to-index map receives
exactly its 4-corner static boundary (lines 275-278); a registered vehicle
whose waypoint buffer is empty does not fall back — the code reads
`front()` of the empty buffer, which is undefined behaviour. -/
theorem geodesic_boundary_fallback :
    (∀ (geo : Geo) (frame : Frame) (m : IdIndexMap) (a : ActorState),
      mapFind m a.id = none →
      GetGeodesicBoundary geo frame m a = .ok (GetBoundary a)) ∧
    (∀ (geo : Geo) (frame : Frame) (m : IdIndexMap) (a : ActorState) idx d,
      mapFind m a.id = some idx → frame[idx]? = some d → d.buffer = [] →
      GetGeodesicBoundary geo frame m a = .error .frontUB) := by
  constructor
  · intro geo frame m a h
    simp only [GetGeodesicBoundary, h]
  · intro geo frame m a idx d h1 h2 h3
    simp only [GetGeodesicBoundary, h1, h2, h3]

/-- C4 witness: an actor in neither table receives its static boundary. -/
theorem geodesic_boundary_fallback_witness :
    GetGeodesicBoundary trivialGeo [] [] (mkActor 3) = .ok (GetBoundary (mkActor 3)) :=
  geodesic_boundary_fallback.1 trivialGeo [] [] (mkActor 3) rfl

/-! ### Claim C10 -/

/-- C10 counterexample: a candidate id in neither the identity-to-index
map nor the unregistered table leaves the handle initialised to `nullptr`
unassigned, and the location read at line 110 dereferences it. -/
theorem candidate_null_deref_reachable :
    candidateBody trivialGeo [] [] [] (mkActor 0) 5 = .nullDeref := rfl

/-- C10 (amended): the per-candidate location read dereferences a null
handle exactly when the candidate differs from the ego vehicle and its id
is found in neither the identity-to-index map nor the unregistered-actor
table; whenever either table resolves the id the handle is non-null before
the read. -/
theorem candidate_null_deref_iff (geo : Geo) (frame : Frame) (m : IdIndexMap)
    (unreg : UnregTable) (ego : ActorState) (c : ActorId) :
    candidateBody geo frame m unreg ego c = .nullDeref ↔
      c ≠ ego.id ∧ mapFind m c = none ∧ unregFind unreg c = none := by
  have hres := resolveActor_eq_nullHandle frame m unreg c
  unfold candidateBody
  by_cases hc : c = ego.id
  · simp [hc]
  · rw [if_neg hc]
    cases hr : resolveActor frame m unreg c with
    | found other =>
      rw [hr] at hres
      dsimp only
      constructor
      · intro h
        split at h
        · split at h <;> simp_all
        · simp_all
      · rintro ⟨-, h2⟩
        exact absurd (hres.mpr h2) (by simp)
    | atThrow =>
      rw [hr] at hres
      dsimp only
      constructor
      · intro h
        simp at h
      · rintro ⟨-, h2⟩
        exact absurd (hres.mpr h2) (by simp)
    | nullHandle =>
      rw [hr] at hres
      obtain ⟨hm2, hu2⟩ := hres.mp rfl
      simp [hc, hm2, hu2]

/-- C10 witness: the null-dereference characterisation evaluated at a
concrete unresolvable candidate. -/
theorem candidate_null_deref_iff_witness :
    candidateBody trivialGeo [] [] [] (mkActor 0) 5 = .nullDeref ↔
      5 ≠ (mkActor 0).id ∧ mapFind [] 5 = none ∧ unregFind [] 5 = none :=
  candidate_null_deref_iff trivialGeo [] [] [] (mkActor 0) 5

/-! ### Claim C6 -/

/-- C6 counterexample: the buffer instance handed to the planner messenger
at tick 0 is the very instance `Action` wrote during tick 0 (against the
claim's "never the instance being written at tick k"), and in the
`DataSender` event order the selector flip (line 149) precedes the
`SendData` call (line 150), against "flipped only after ... handed off". -/
theorem frame_selector_literal_counterexample :
    sentBuf 0 = writtenBuf 0 ∧
    List.indexOf TickEvent.flipSelector (tickEvents 0 1) <
      List.indexOf (TickEvent.send (sentBuf 0)) (tickEvents 0 1) := by
  constructor
  · rfl
  · decide

/-- C6 (amended): each tick flips the frame selector exactly once; the
flip and the send follow every hazard write of the tick (the packet built
at lines 145-148 captures the pre-flip buffer, so the sent instance is the
one just written); and the instance sent at tick `k` is never the instance
written at tick `k + 1`. -/
theorem frame_selector_protocol (k n : Nat) :
    ((tickEvents k n).countP fun e => decide (e = TickEvent.flipSelector)) = 1 ∧
    (tickEvents k n).take n = actionEvents k n ∧
    (tickEvents k n).drop n = [TickEvent.flipSelector, TickEvent.send (sentBuf k)] ∧
    sentBuf k ≠ writtenBuf (k + 1) := by
  have hlen : (actionEvents k n).length = n := by simp [actionEvents]
  refine ⟨?_, ?_, ?_, ?_⟩
  · unfold tickEvents
    rw [List.countP_append]
    have h0 : ((actionEvents k n).countP fun e => decide (e = TickEvent.flipSelector)) = 0 := by
      rw [List.countP_eq_zero]
      intro e he
      simp only [actionEvents, List.mem_map, List.mem_range] at he
      obtain ⟨slot, -, rfl⟩ := he
      simp
    rw [h0]
    rfl
  · unfold tickEvents
    rw [List.take_append_of_le_length (le_of_eq hlen.symm),
      List.take_of_length_le (le_of_eq hlen)]
  · unfold tickEvents
    rw [List.drop_append_of_le_length (le_of_eq hlen.symm),
      List.drop_of_length_le (le_of_eq hlen)]
    rfl
  · have hs : selAt (k + 1) = !selAt k := rfl
    unfold sentBuf writtenBuf bufOf
    rw [hs]
    cases h : selAt k <;> simp [h]

/-- C6 witness: the protocol facts evaluated at tick 0 over a one-vehicle
frame. -/
theorem frame_selector_protocol_witness :
    ((tickEvents 0 1).countP fun e => decide (e = TickEvent.flipSelector)) = 1 ∧
    (tickEvents 0 1).take 1 = actionEvents 0 1 ∧
    (tickEvents 0 1).drop 1 = [TickEvent.flipSelector, TickEvent.send (sentBuf 0)] ∧
    sentBuf 0 ≠ writtenBuf 1 :=
  frame_selector_protocol 0 1

/-! ### Claim C7 -/

/-- C7: an exception caught by the per-candidate handler (line 117) makes
the scan of that candidate contribute no hazard and continue with the
remaining candidates — removing the throwing candidate from the list does
not change the scan's result — and whenever every vehicle of the worker's
range completes its scan, the range loop of `Action` writes exactly one
hazard flag per index of the range, in order. -/
theorem candidate_exception_recovered :
    (∀ (geo : Geo) (frame : Frame) (m : IdIndexMap) (unreg : UnregTable)
      (ego : ActorState) (l1 l2 : List ActorId) (c : ActorId),
      candidateBody geo frame m unreg ego c = .caughtExn →
      scanCandidates geo frame m unreg ego (l1 ++ c :: l2) =
        scanCandidates geo frame m unreg ego (l1 ++ l2)) ∧
    (∀ (geo : Geo) (frame : Frame) (m : IdIndexMap) (unreg : UnregTable)
      (candsOf : ActorState → List ActorId) (start_index end_index : Nat),
      (∀ i, start_index ≤ i → i ≤ end_index →
        ∃ b, perVehicle geo frame m unreg candsOf i = .ok b) →
      ∃ out, actionRange geo frame m unreg candsOf start_index end_index = .ok out ∧
        out.map Prod.fst = List.range' start_index (end_index + 1 - start_index)) := by
  constructor
  · intro geo frame m unreg ego l1 l2 c hc
    induction l1 with
    | nil =>
      simp only [List.nil_append]
      rw [scanCandidates, hc]
    | cons c2 rest ih =>
      simp only [List.cons_append, scanCandidates, List.append_eq]
      rw [ih]
  · intro geo frame m unreg candsOf start_index end_index h
    apply actionLoop_ok
    intro i h1 h2
    exact h i h1 (by omega)

/-- C7 witness: a candidate whose registered index is stale and out of the
frame's range throws inside the try block; the scan over just that
candidate equals the scan over no candidates, and a one-vehicle range
still receives its hazard write. -/
theorem candidate_exception_recovered_witness :
    scanCandidates trivialGeo [] [(5, 3)] [] (mkActor 0) [5] =
      scanCandidates trivialGeo [] [(5, 3)] [] (mkActor 0) [] :=
  candidate_exception_recovered.1 trivialGeo [] [(5, 3)] [] (mkActor 0) [] [] 5 rfl

/-! ### Claim C8 -/

/-- C8: the distance guard of the per-candidate loop (line 111) bounds the
planar separation — a passed guard implies the squared planar distance is
at most `SEARCH_RADIUS^2 = 400` — and a resolved candidate farther than
the radius in the ground plane is never flagged hazardous, since the 3D
squared distance the code compares dominates the planar one. -/
theorem candidate_search_radius :
    (∀ p q : Vec3, distanceSquared p q ≤ SEARCH_RADIUS * SEARCH_RADIUS →
      planarDistanceSquared p q ≤ SEARCH_RADIUS * SEARCH_RADIUS) ∧
    (∀ (geo : Geo) (frame : Frame) (m : IdIndexMap) (unreg : UnregTable)
      (ego : ActorState) (c : ActorId) (other : ActorState),
      resolveActor frame m unreg c = .found other →
      SEARCH_RADIUS * SEARCH_RADIUS < planarDistanceSquared ego.location other.location →
      candidateBody geo frame m unreg ego c = .ok false) := by
  have key : ∀ p q : Vec3, planarDistanceSquared p q ≤ distanceSquared p q := by
    intro p q
    unfold planarDistanceSquared distanceSquared
    nlinarith [sq_nonneg (p.z - q.z)]
  constructor
  · intro p q h
    exact le_trans (key p q) h
  · intro geo frame m unreg ego c other hres hfar
    unfold candidateBody
    by_cases hc : c = ego.id
    · rw [if_pos hc]
    · rw [if_neg hc]
      simp only [hres]
      rw [if_neg (not_le.mpr (lt_of_lt_of_le hfar (key _ _)))]

/-- C8 witness: an unregistered candidate thirty units away in the ground
plane is never flagged against the ego vehicle. -/
theorem candidate_search_radius_witness :
    candidateBody trivialGeo [] [] [(5, { mkActor 5 with location := ⟨30, 0, 0⟩ })]
      (mkActor 0) 5 = .ok false :=
  candidate_search_radius.2 trivialGeo [] [] [(5, { mkActor 5 with location := ⟨30, 0, 0⟩ })]
    (mkActor 0) 5 { mkActor 5 with location := ⟨30, 0, 0⟩ } rfl (by norm_num [mkActor,
      planarDistanceSquared, SEARCH_RADIUS])

/-! ### Claim C9 -/

/-- C9: `CheckOverlap` is symmetric in its two boundaries, given the
set-intersection semantics of `boost::geometry::intersection` (the pieces
of `A ∩ B` and of `B ∩ A` carry the same multiset of areas, stated as the
hypothesis `hsym`); and on non-empty boundaries it returns true exactly
when some intersection piece has area above `ZERO_AREA` (lines 185-206). -/
theorem check_overlap_symmetric (geo : Geo)
    (hsym : ∀ pa pb, ((geo.interPieces pa pb).map geo.area).Perm
      ((geo.interPieces pb pa).map geo.area)) :
    (∀ A B, CheckOverlap geo A B = CheckOverlap geo B A) ∧
    (∀ A B, A ≠ [] → B ≠ [] →
      (CheckOverlap geo A B = true ↔
        ∃ p ∈ geo.interPieces (GetPolygon A) (GetPolygon B), ZERO_AREA < geo.area p)) := by
  constructor
  · intro A B
    unfold CheckOverlap
    by_cases hA : 0 < A.length <;> by_cases hB : 0 < B.length
    · rw [if_pos (by simp [hA, hB]), if_pos (by simp [hA, hB])]
      rw [any_area_map, any_area_map, perm_any_eq (hsym _ _)]
    · rw [if_neg (by simp [hB]), if_neg (by simp [hB])]
    · rw [if_neg (by simp [hA]), if_neg (by simp [hA])]
    · rw [if_neg (by simp [hA]), if_neg (by simp [hA])]
  · intro A B hA hB
    unfold CheckOverlap
    rw [if_pos (by simp [List.length_pos.mpr hA, List.length_pos.mpr hB])]
    simp [List.any_eq_true]

/-- C9 witness: the symmetry equation evaluated on two concrete one-point
boundaries under the degenerate geometry. -/
theorem check_overlap_symmetric_witness :
    CheckOverlap trivialGeo [(⟨0, 0, 0⟩ : Vec3)] [(⟨1, 1, 0⟩ : Vec3)] =
      CheckOverlap trivialGeo [(⟨1, 1, 0⟩ : Vec3)] [(⟨0, 0, 0⟩ : Vec3)] :=
  (check_overlap_symmetric trivialGeo (fun pa pb => by simp [trivialGeo])).1
    [(⟨0, 0, 0⟩ : Vec3)] [(⟨1, 1, 0⟩ : Vec3)]

end CollisionStage
